import Mathlib

/-!
Shallow embedding of the winerp client protocol engine (src/winerp/client.py).

The embedding models the pure decision logic of the client: the
receive-dispatch loop `Client.__on_message`, the correlation-table
resolution `Client._dispatch`, the request fulfilment `Client._fulfill_request`,
the listener registration `Client.__get_response`, the route registration
decorator `Client.route`, and the readiness gates of `Client.request`,
`Client.ping` and `Client.inform`.

Python dicts (`self.routes`, `self.listeners`) are modelled as insertion-ordered
association lists with unique keys; asyncio futures are modelled as
single-assignment slots; spawned tasks and fired lifecycle events are recorded
as effect lists.  The auxiliary library `winerp.lib` (message/payload/error
classes) is not part of the given sources; its data shapes are modelled from
the spec where noted.
-/

/-- JSON values, the payload universe of the wire format (`json` module). -/
inductive Json where
  | null
  | bool (b : Bool)
  | num (n : Int)
  | str (s : String)
  | arr (elems : List Json)
  | obj (fields : List (String × Json))

/-- Python truthiness of a JSON value, used by `if message.data:`. -/
def Json.truthy : Json → Bool
  | .null => false
  | .bool b => b
  | .num n => n != 0
  | .str s => s ≠ ""
  | .arr xs => !xs.isEmpty
  | .obj fs => !fs.isEmpty

/-- Test whether a JSON value is exactly the given string, used by the
comparison `message.data == "Already authorized."`. -/
def Json.isStr (j : Json) (s : String) : Bool :=
  match j with
  | .str t => t = s
  | _ => false

/-- Lookup in a Python dict modelled as an insertion-ordered association list. -/
def dictLookup {α : Type} : List (String × α) → String → Option α
  | [], _ => none
  | (k, v) :: rest, u => if k = u then some v else dictLookup rest u

/-- Membership test for a key (`k in d`). -/
def dictContains {α : Type} (d : List (String × α)) (u : String) : Bool :=
  (dictLookup d u).isSome

/-- Key list of a dict. -/
def dictKeys {α : Type} (d : List (String × α)) : List String :=
  d.map Prod.fst

/-- Python dict assignment `d[k] = v`: replaces the value in place if the key
exists, otherwise appends the new binding. -/
def dictInsert {α : Type} : List (String × α) → String → α → List (String × α)
  | [], k, v => [(k, v)]
  | (k', v') :: rest, k, v =>
      if k' = k then (k', v) :: rest else (k', v') :: dictInsert rest k v

/-- Python `d.get(k, dflt)` on a JSON object; non-objects yield the default. -/
def Json.getField (j : Json) (k : String) (dflt : Json) : Json :=
  match j with
  | .obj fs => (dictLookup fs k).getD dflt
  | _ => dflt

/-- Modelled from the spec: message kinds of `winerp.lib.payload.Payloads`
(the lib module is not under the given sources).  The spec lists the envelope
kinds Verification, Ping, Request, Response, Error, Information; the code
additionally branches on a `success` kind (the relay's Verification-success
reply). -/
inductive PayloadType where
  | success
  | verification
  | request
  | response
  | error
  | ping
  | information
  deriving DecidableEq

/-- Route field of an envelope: absent, a single route name (Request), or a
list of destination route names (Information). -/
inductive RouteVal where
  | noneV
  | strV (s : String)
  | listV (l : List String)
  deriving DecidableEq

/-- Modelled from the spec: an incoming envelope as exposed by
`winerp.lib.message.WsMessage` (not under the given sources) — the fields
`type`, `id` (sender), `destination`, `route`, `data`, `uuid`, `traceback`
read by `client.py`. -/
structure WsMessage where
  type : PayloadType
  id : Option String := none
  destination : Option String := none
  route : RouteVal := .noneV
  data : Json := .obj []
  uuid : Option String := none
  traceback : Option String := none

/-- Modelled from the spec: an outgoing envelope as built through
`winerp.lib.payload.MessagePayload` (not under the given sources), carrying
the same fields as `WsMessage`. -/
structure MessagePayload where
  type : PayloadType
  id : Option String := none
  destination : Option String := none
  route : RouteVal := .noneV
  data : Json := .obj []
  uuid : Option String := none
  traceback : Option String := none

/-- Modelled from the spec: `MessagePayload().from_message(message)` copies
every envelope field of the incoming message into the fresh payload. -/
def fromMessage (m : WsMessage) : MessagePayload :=
  { type := m.type, id := m.id, destination := m.destination, route := m.route,
    data := m.data, uuid := m.uuid, traceback := m.traceback }

/-- Outcome written into an asyncio future by `Client._dispatch`:
`future.set_result(data)`, or `future.set_exception` with
`CheckFailureError` or `ClientRuntimeError(msg.data)`. -/
inductive FutureOutcome where
  | result (d : Json)
  | checkFailureError (u : String)
  | clientRuntimeError (d : Json)

/-- State of an asyncio future: single-assignment slot. -/
inductive FutureSlot where
  | unset
  | set (o : FutureOutcome)

/-- One entry of `self.listeners`: the tuple `(check, future)` stored by
`Client.__get_response`. -/
structure Listener where
  check : Option (Json → Bool)
  slot : FutureSlot

/-- Exceptions raised by `Client._dispatch`: `MissingUUIDError` when the
message has no uuid, `UUIDNotFoundError` when no listener matches, and
asyncio's `InvalidStateError` when the matched future is already resolved. -/
inductive DispatchErr where
  | missingUUIDError
  | uuidNotFoundError (u : String)
  | invalidStateError

/-- Default acceptance check: `_check` in `Client._dispatch` accepts
unconditionally when the stored check is `None`. -/
def checkApply (check : Option (Json → Bool)) (d : Json) : Bool :=
  match check with
  | some f => f d
  | none => true

/-- Outcome assigned to the matched future by `Client._dispatch`:
Error-kind messages always fulfil as `ClientRuntimeError(msg.data)`; other
kinds apply the acceptance check — on pass `set_result(data)`, on failure
`CheckFailureError`. -/
def resolveOutcome (m : WsMessage) (u : String) (check : Option (Json → Bool)) :
    FutureOutcome :=
  if m.type = .error then .clientRuntimeError m.data
  else if checkApply check m.data then .result m.data
  else .checkFailureError u

/-- Scan of `self.listeners.items()` in `Client._dispatch`: every entry whose
key equals the uuid gets its future assigned; the boolean records whether any
entry matched.  Assigning an already-resolved future raises
`InvalidStateError`. -/
def dispatchScan (m : WsMessage) (u : String) :
    List (String × Listener) → Except DispatchErr (List (String × Listener) × Bool)
  | [] => .ok ([], false)
  | (k, l) :: rest =>
      if k = u then
        match l.slot with
        | .set _ => .error .invalidStateError
        | .unset =>
            match dispatchScan m u rest with
            | .ok (rest', _) =>
                .ok ((k, ⟨l.check, .set (resolveOutcome m u l.check)⟩) :: rest', true)
            | .error e => .error e
      else
        match dispatchScan m u rest with
        | .ok (rest', f) => .ok ((k, l) :: rest', f)
        | .error e => .error e

/-- Embedding of `Client._dispatch`: raise `MissingUUIDError` when the message
carries no uuid, otherwise scan the listeners; raise `UUIDNotFoundError` when
no entry matched. -/
def dispatchStep (m : WsMessage) (ls : List (String × Listener)) :
    Except DispatchErr (List (String × Listener)) :=
  match m.uuid with
  | none => .error .missingUUIDError
  | some u =>
      match dispatchScan m u ls with
      | .error e => .error e
      | .ok (ls', found) => if found then .ok ls' else .error (.uuidNotFoundError u)

/-- Boolean success test for an `Except` result. -/
def exceptOk {ε α : Type} : Except ε α → Bool
  | .ok _ => true
  | .error _ => false

/-- Listener-table lookup after a successful dispatch (none on exception). -/
def dispatchResultLookup (m : WsMessage) (ls : List (String × Listener))
    (u : String) : Option Listener :=
  match dispatchStep m ls with
  | .ok ls' => dictLookup ls' u
  | .error _ => none

/-- Embedding of `Client.__get_response`'s registration effect:
`self.listeners[_uuid] = (None, future)` — a plain dict assignment with a
fresh unresolved future and no check; there is no duplicate-id test. -/
def getResponseRegister (ls : List (String × Listener)) (u : String) :
    List (String × Listener) :=
  dictInsert ls u ⟨none, .unset⟩

/-- Connection flags `_authorized` / `_on_hold` of the client. -/
structure ConnState where
  authorized : Bool
  onHold : Bool
  deriving DecidableEq

/-- Immutable context of the receive loop: the local client name and the key
set of the route registry `self.routes`. -/
structure LoopCtx where
  localName : String
  routes : List String

/-- One iteration's input to `Client.__on_message`: either the transport
yielded a message, or `recv` raised `ConnectionClosedError`. -/
inductive LoopEvent where
  | closed
  | msg (m : WsMessage)

/-- Effects of one iteration of `Client.__on_message`: the updated connection
flags, the payloads handed to `__send_message`, the `_fulfill_request` and
`_dispatch` tasks spawned, the lifecycle events fired, and whether the loop
proceeds to the next `recv` (false on `break` and on the `return` in the
route-not-found branch). -/
structure StepEffect where
  state : ConnState
  sent : List MessagePayload := []
  fulfills : List WsMessage := []
  dispatches : List WsMessage := []
  events : List String := []
  continues : Bool := true

/-- Membership test `message.route in self.routes` of the request branch:
a string route is looked up among the registered names; an absent route is
never a dict key. -/
def routeFound (routes : List String) : RouteVal → Bool
  | .strV r => routes.contains r
  | _ => false

/-- Error reply built in the route-not-found branch of `Client.__on_message`:
type error, sender the local name, data and traceback "Route not found",
destination the request's sender, uuid echoed. -/
def routeNotFoundReply (localName : String) (m : WsMessage) : MessagePayload :=
  { type := .error, id := some localName, data := .str "Route not found",
    traceback := some "Route not found", destination := m.id, uuid := m.uuid }

/-- Embedding of one iteration of `Client.__on_message`, following the
`elif` chain on `message.type` exactly: success (while unauthorized), ping,
request, response, error, information; any other message falls through with
no effect. -/
def onMessageStep (ctx : LoopCtx) (s : ConnState) (ev : LoopEvent) : StepEffect :=
  match ev with
  | .closed =>
      { state := s, events := ["on_winerp_disconnect"], continues := false }
  | .msg m =>
      if m.type = .success ∧ s.authorized = false then
        { state := { authorized := true, onHold := false },
          events := ["on_winerp_ready"] }
      else if m.type = .ping then
        { state := s, dispatches := [m] }
      else if m.type = .request then
        if routeFound ctx.routes m.route then
          { state := s, fulfills := [m], events := ["on_winerp_request"] }
        else
          { state := s, sent := [routeNotFoundReply ctx.localName m],
            continues := false }
      else if m.type = .response then
        { state := s, dispatches := [m], events := ["on_winerp_response"] }
      else if m.type = .error then
        { state := if m.data.isStr "Already authorized." then
                     { s with onHold := true } else s,
          dispatches := if m.uuid.isSome then [m] else [],
          events := if m.data.isStr "Already authorized." then []
                    else ["on_winerp_error"] }
      else if m.type = .information then
        { state := s,
          events := if m.data.truthy then ["on_winerp_information"] else [] }
      else
        { state := s }

/-- Run of the `while True` loop of `Client.__on_message` over a list of
transport events, stopping as soon as an iteration does not continue; returns
the final connection flags and the trace of per-iteration effects. -/
def runLoop (ctx : LoopCtx) (s : ConnState) : List LoopEvent →
    ConnState × List StepEffect
  | [] => (s, [])
  | ev :: rest =>
      let eff := onMessageStep ctx s ev
      if eff.continues then
        let r := runLoop ctx eff.state rest
        (r.1, eff :: r.2)
      else
        (eff.state, [eff])

/-- Count of loop iterations that fired the "on_winerp_ready" notification,
i.e. that took the verification-success branch. -/
def readyCount (tr : List StepEffect) : Nat :=
  tr.countP (fun e => e.events.contains "on_winerp_ready")

/-- Result of the `try` block of `Client._fulfill_request`: either the handler
completed and its result passed the `json.dumps` serializability check, or an
exception was caught (a handler exception or the serialization failure), with
its message `str(error)` and formatted traceback text. -/
inductive TryOutcome where
  | ok (d : Json)
  | exc (emsg : String) (tb : String)

/-- Embedding of `Client._fulfill_request`'s reply construction: start from a
copy of the incoming message, set type to response, sender to the local name
and data to the empty object; on success store the handler result, on a caught
exception switch the type to error and store the exception message and
traceback.  The `finally` block sends the payload in all cases. -/
def fulfillRequest (localName : String) (m : WsMessage) (out : TryOutcome) :
    MessagePayload :=
  let p := { fromMessage m with
    type := .response
    id := some localName
    data := Json.obj [] }
  match out with
  | .ok d => { p with data := d }
  | .exc emsg tb => { p with
      type := .error
      data := .str emsg
      traceback := some tb }

/-- Payloads handed to `__send_message` by one run of `Client._fulfill_request`:
the `finally` block sends exactly one reply. -/
def fulfillSends (localName : String) (m : WsMessage) (out : TryOutcome) :
    List MessagePayload :=
  [fulfillRequest localName m out]

/-- Connection view used by the readiness gates of `request`/`ping`/`inform`:
`wsOpen` abbreviates `self.websocket is not None and self.websocket.open`. -/
structure ClientConn where
  wsOpen : Bool
  onHold : Bool
  authorized : Bool
  deriving DecidableEq

/-- Exceptions raised by the outbound operations before any send:
`ClientNotReadyError`, `UnauthorizedError`, and `ValueError` for a missing
route or destination on `request`. -/
inductive OpErr where
  | clientNotReadyError
  | unauthorizedError
  | valueError
  deriving DecidableEq

/-- Embedding of `Client.request` up to the send: the gates in source order
(transport open, on hold, authorized, non-empty route and destination), then
the request payload that would be sent. -/
def requestCall (c : ClientConn) (localName route source u : String)
    (kwargs : Json) : Except OpErr MessagePayload :=
  if c.wsOpen then
    if c.onHold then .error .clientNotReadyError
    else if !c.authorized then .error .unauthorizedError
    else if route = "" || source = "" then .error .valueError
    else .ok { type := .request, id := some localName, destination := some source,
               route := .strV route, data := kwargs, uuid := some u }
  else .error .clientNotReadyError

/-- Embedding of `Client.ping` up to the send: its gate tests
`self._on_hold or self.websocket is None or not self.websocket.open` first,
then authorization, then builds the ping payload. -/
def pingCall (c : ClientConn) (localName : String) (client : Option String)
    (u : String) : Except OpErr MessagePayload :=
  if c.onHold || !c.wsOpen then .error .clientNotReadyError
  else if !c.authorized then .error .unauthorizedError
  else .ok { type := .ping, id := some localName, destination := client,
             uuid := some u }

/-- Destinations argument of `Client.inform`: a single value is normalized
into a one-element list. -/
inductive InformDest where
  | one (s : String)
  | many (l : List String)

/-- Embedding of `Client.inform` up to the send: same gates as `request`, then
the information payload with the normalized destination list as its route and
no uuid. -/
def informCall (c : ClientConn) (localName : String) (data : Json)
    (dest : InformDest) : Except OpErr MessagePayload :=
  if c.wsOpen then
    if c.onHold then .error .clientNotReadyError
    else if !c.authorized then .error .unauthorizedError
    else .ok { type := .information, id := some localName,
               route := .listV (match dest with | .one s => [s] | .many l => l),
               data := data }
  else .error .clientNotReadyError

/-- Outcome of `await self.__get_response(...)` as seen by `ping`/`request`:
the future completed with an outcome set by `_dispatch`, or `asyncio.wait_for`
timed out. -/
inductive AwaitOutcome where
  | completed (o : FutureOutcome)
  | timedOut

/-- Exceptions propagating out of the await in `Client.ping`: the future's
stored exception, or `asyncio.TimeoutError` from `wait_for` (the `ping` body
has no handler for it). -/
inductive PingErr where
  | checkFailureError (u : String)
  | clientRuntimeError (d : Json)
  | timeoutError

/-- Embedding of `Client.ping` after the send: on a completed future return
`resp.get("success", False)`; a stored exception or a `wait_for` timeout
propagates as an exception. -/
def pingAwait (o : AwaitOutcome) : Except PingErr Json :=
  match o with
  | .completed (.result d) => .ok (d.getField "success" (.bool false))
  | .completed (.checkFailureError u) => .error (.checkFailureError u)
  | .completed (.clientRuntimeError d) => .error (.clientRuntimeError d)
  | .timedOut => .error .timeoutError

/-- Exceptions raised by the `Client.route` decorator: `ValueError` on a
duplicate route name, `InvalidRouteType` when the handler is not a coroutine
function. -/
inductive RouteRegErr where
  | valueErrorDuplicate
  | invalidRouteType
  deriving DecidableEq

/-- Embedding of the `Client.route` decorator over an arbitrary handler
representation `H`: the duplicate test distinguishes an omitted name (the
handler's `__name__` is looked up) from an explicit one; the stored key is
the Python expression `name or func.__name__`, which falls back to the
function name for an empty explicit name. -/
def routeRegister {H : Type} (routes : List (String × H)) (name : Option String)
    (funcName : String) (isCoro : Bool) (func : H) :
    Except RouteRegErr (List (String × H)) :=
  if (match name with
      | none => dictContains routes funcName
      | some n => dictContains routes n) then
    .error .valueErrorDuplicate
  else if !isCoro then
    .error .invalidRouteType
  else
    .ok (dictInsert routes
          (match name with
           | some n => if n = "" then funcName else n
           | none => funcName) func)

/-- Route name the registration claims, following the spec's reading: the
explicit name, or the handler's own name when omitted. -/
def claimedName (name : Option String) (funcName : String) : String :=
  match name with
  | some n => n
  | none => funcName

/-- Route registry as left behind by a `Client.route` call: unchanged when the
decorator raised, the extended registry otherwise. -/
def routeAfter {H : Type} (routes : List (String × H)) (name : Option String)
    (funcName : String) (isCoro : Bool) (func : H) : List (String × H) :=
  match routeRegister routes name funcName isCoro func with
  | .ok r => r
  | .error _ => routes

/-- Concrete loop context for the unregistered-route scenario: client "A"
with a single registered route "known". -/
def c1ctx : LoopCtx := { localName := "A", routes := ["known"] }

/-- Concrete connection flags: authorized, not on hold. -/
def c1s : ConnState := { authorized := true, onHold := false }

/-- Concrete incoming request from "B" naming the unregistered route
"missing". -/
def c1req : WsMessage :=
  { type := .request, id := some "B", destination := some "A",
    route := .strV "missing", data := .obj [], uuid := some "u-1" }

/-- Concrete follow-up envelope arriving after the bad request. -/
def c1next : WsMessage :=
  { type := .ping, id := some "B", uuid := some "u-2" }

/-- Concrete listener table with one pending operation under id "u1". -/
def c2ls : List (String × Listener) := [("u1", ⟨none, .unset⟩)]

/-- Concrete response envelope matching the pending id "u1". -/
def c2m : WsMessage :=
  { type := .response, id := some "B", data := .str "pong", uuid := some "u1" }

/-- Concrete loop context for the on-hold scenario. -/
def c4ctx : LoopCtx := { localName := "A", routes := [] }

/-- Concrete connection flags: authorized and on hold. -/
def c4state : ConnState := { authorized := true, onHold := true }

/-- Concrete successful-type envelope. -/
def c4succ : WsMessage := { type := .success }

/-- Concrete listener table with one pending operation under id "w7". -/
def c7ls : List (String × Listener) := [("w7", ⟨none, .unset⟩)]

/-- Concrete response envelope matching the pending id "w7". -/
def c7m : WsMessage :=
  { type := .response, data := .str "ok", uuid := some "w7" }

/-- Concrete listener entry whose future is already resolved, standing for
the outstanding operation that a duplicate registration would clobber. -/
def c9old : Listener := ⟨none, .set (.result Json.null)⟩

/-- Concrete loop context for the monotone-authorization run. -/
def c10ctx : LoopCtx := { localName := "A", routes := [] }

theorem dictLookup_insert_self {α : Type} (ls : List (String × α)) (k : String)
    (v : α) : dictLookup (dictInsert ls k v) k = some v := by
  induction ls with
  | nil => simp [dictInsert, dictLookup]
  | cons hd tl ih =>
      obtain ⟨k', v'⟩ := hd
      by_cases h : k' = k
      · simp [dictInsert, dictLookup, h]
      · simp [dictInsert, dictLookup, h, ih]

theorem dictKeys_insert_of_contains {α : Type} (ls : List (String × α))
    (k : String) (v : α) (h : dictContains ls k = true) :
    dictKeys (dictInsert ls k v) = dictKeys ls := by
  induction ls with
  | nil => simp [dictContains, dictLookup] at h
  | cons hd tl ih =>
      obtain ⟨k', v'⟩ := hd
      by_cases hk : k' = k
      · simp [dictInsert, dictKeys, hk]
      · have h' : dictContains tl k = true := by
          simpa [dictContains, dictLookup, hk] using h
        have htl := ih h'
        simp only [dictKeys, List.map] at htl ⊢
        simp [dictInsert, hk, htl]

theorem dictLookup_eq_none_of_not_mem {α : Type} (ls : List (String × α))
    (u : String) (h : u ∉ dictKeys ls) : dictLookup ls u = none := by
  induction ls with
  | nil => rfl
  | cons hd tl ih =>
      obtain ⟨k, v⟩ := hd
      simp only [dictKeys, List.map, List.mem_cons] at h
      push_neg at h
      obtain ⟨h1, h2⟩ := h
      have htl : dictLookup tl u = none := ih (by simpa [dictKeys] using h2)
      have hk : ¬k = u := fun hk => h1 hk.symm
      simp [dictLookup, hk, htl]

theorem dispatchScan_no_match (m : WsMessage) (u : String)
    (ls : List (String × Listener)) (h : dictLookup ls u = none) :
    dispatchScan m u ls = .ok (ls, false) := by
  induction ls with
  | nil => rfl
  | cons hd tl ih =>
      obtain ⟨k, l⟩ := hd
      by_cases hk : k = u
      · simp [dictLookup, hk] at h
      · have htl : dictLookup tl u = none := by simpa [dictLookup, hk] using h
        simp [dispatchScan, hk, ih htl]

theorem dispatchScan_found (m : WsMessage) (u : String)
    (ls : List (String × Listener)) (hnd : (dictKeys ls).Nodup)
    (chk : Option (Json → Bool))
    (h : dictLookup ls u = some ⟨chk, .unset⟩) :
    ∃ ls', dispatchScan m u ls = .ok (ls', true) ∧
      dictLookup ls' u = some ⟨chk, .set (resolveOutcome m u chk)⟩ ∧
      dictKeys ls' = dictKeys ls := by
  induction ls with
  | nil => simp [dictLookup] at h
  | cons hd tl ih =>
      obtain ⟨k, l⟩ := hd
      have hnd2 : (k :: List.map Prod.fst tl).Nodup := by
        simpa only [dictKeys, List.map] using hnd
      by_cases hk : k = u
      · have hl : l = ⟨chk, .unset⟩ := by
          have := h
          simp [dictLookup, hk] at this
          exact this
        have hu : u ∉ dictKeys tl := by
          rw [← hk]
          exact (List.nodup_cons.mp hnd2).1
        have htl : dictLookup tl u = none := dictLookup_eq_none_of_not_mem tl u hu
        refine ⟨(k, ⟨chk, .set (resolveOutcome m u chk)⟩) :: tl, ?_, ?_, ?_⟩
        · subst hl
          simp [dispatchScan, hk, dispatchScan_no_match m u tl htl]
        · simp [dictLookup, hk]
        · simp [dictKeys]
      · have htl : dictLookup tl u = some ⟨chk, .unset⟩ := by
          simpa [dictLookup, hk] using h
        have hnd' : (dictKeys tl).Nodup := (List.nodup_cons.mp hnd2).2
        obtain ⟨tl', hscan, hlook, hkeys⟩ := ih hnd' htl
        refine ⟨(k, l) :: tl', ?_, ?_, ?_⟩
        · simp [dispatchScan, hk, hscan]
        · simp [dictLookup, hk, hlook]
        · simp [dictKeys] at hkeys ⊢
          exact hkeys

/-- Claim C1 (code bug): on a Request naming an unregistered route the loop
sends back the "Route not found" Error envelope echoing the correlation id
and invokes no handler, but the `return` statement terminates the dispatcher
loop, so the following envelope is never read — the trace of the run over
two events has a single iteration whose continue flag is false. -/
theorem c1_route_not_found_stops_loop :
    runLoop c1ctx c1s [.msg c1req, .msg c1next] =
      (c1s,
       [{ state := c1s,
          sent := [{ type := .error, id := some "A",
                     data := .str "Route not found",
                     traceback := some "Route not found",
                     destination := some "B", uuid := some "u-1" }],
          fulfills := [], dispatches := [], events := [],
          continues := false }]) := by
  rfl

/-- Claim C2 (code bug): resolving the pending operation "u1" assigns its
future, but `_dispatch` never deletes the entry — after a successful dispatch
the Correlation Table still contains the resolved entry under "u1" (and
neither `request` nor `ping` removes an entry on timeout). -/
theorem c2_entry_not_removed :
    dispatchResultLookup c2m c2ls "u1" =
        some ⟨none, .set (.result (.str "pong"))⟩ ∧
    (match dispatchStep c2m c2ls with
     | .ok ls' => dictKeys ls'
     | .error _ => []) = ["u1"] := by
  exact ⟨rfl, rfl⟩

/-- Claim C3 (code bug): the await in `Client.ping` has no timeout handler,
so a `wait_for` timeout propagates as `asyncio.TimeoutError` instead of
yielding `false`; only a completed future produces the boolean
`resp.get("success", False)`. -/
theorem c3_ping_timeout_raises :
    pingAwait .timedOut = .error .timeoutError ∧
    pingAwait (.completed (.result (.obj [("success", .bool true)]))) =
        .ok (.bool true) ∧
    pingAwait (.completed (.result (.obj []))) = .ok (.bool false) := by
  exact ⟨rfl, rfl, rfl⟩

/-- Claim C4 (counterexample): from the state on-hold and already authorized,
processing a successful-type envelope leaves the hold set — the success
branch of `__on_message` requires `not self._authorized`, so not every
on-hold state is cleared by a successful-type message. -/
theorem c4_counterexample :
    c4state.onHold = true ∧ c4succ.type = PayloadType.success ∧
    (onMessageStep c4ctx c4state (.msg c4succ)).state.onHold = true := by
  exact ⟨rfl, rfl, rfl⟩

/-- Claim C4 (amended): while on hold and not yet authorized, a
successful-type envelope clears the hold; an envelope of any other kind never
clears it. -/
theorem c4_hold_cleared_amended (ctx : LoopCtx) (s : ConnState) (m : WsMessage)
    (hh : s.onHold = true) :
    (s.authorized = false → m.type = .success →
        (onMessageStep ctx s (.msg m)).state.onHold = false) ∧
    (m.type ≠ .success → (onMessageStep ctx s (.msg m)).state.onHold = true) := by
  constructor
  · intro ha ht
    simp [onMessageStep, ht, ha]
  · intro ht
    simp only [onMessageStep]
    rw [if_neg (fun hc => ht hc.1)]
    repeat' split
    all_goals simp [hh]

/-- Claim C4 (witness): on hold and unauthorized, a successful-type envelope
clears the hold. -/
theorem c4_hold_cleared_witness :
    (onMessageStep c4ctx { authorized := false, onHold := true }
        (.msg c4succ)).state.onHold = false :=
  (c4_hold_cleared_amended c4ctx { authorized := false, onHold := true }
      c4succ rfl).1 rfl rfl

/-- Claim C5 (confirmed): for any payload and arguments, `request`, `ping` and
`inform` all raise `ClientNotReadyError` when on hold or when the transport is
closed or never opened, and raise `UnauthorizedError` when the transport is
open, the client is not on hold, and the verification handshake has not
succeeded; in both cases the result is an exception, so no envelope is
produced for sending. -/
theorem c5_readiness_gates (c : ClientConn) (localName route source u : String)
    (kwargs : Json) (client : Option String) (data : Json) (dest : InformDest) :
    (c.onHold = true ∨ c.wsOpen = false →
      requestCall c localName route source u kwargs = .error .clientNotReadyError ∧
      pingCall c localName client u = .error .clientNotReadyError ∧
      informCall c localName data dest = .error .clientNotReadyError) ∧
    (c.wsOpen = true → c.onHold = false → c.authorized = false →
      requestCall c localName route source u kwargs = .error .unauthorizedError ∧
      pingCall c localName client u = .error .unauthorizedError ∧
      informCall c localName data dest = .error .unauthorizedError) := by
  obtain ⟨o, h, a⟩ := c
  constructor
  · rintro (hh | ho)
    · cases hh
      cases o <;> simp [requestCall, pingCall, informCall]
    · cases ho
      simp [requestCall, pingCall, informCall]
  · rintro ho hh ha
    cases ho; cases hh; cases ha
    simp [requestCall, pingCall, informCall]

/-- Claim C5 (witness): with the transport closed every operation is not
ready, and with an open transport, no hold and no authorization every
operation is unauthorized. -/
theorem c5_readiness_gates_witness :
    requestCall ⟨false, false, false⟩ "A" "r" "B" "u" Json.null =
        .error .clientNotReadyError ∧
    pingCall ⟨true, false, false⟩ "A" none "u" = .error .unauthorizedError ∧
    informCall ⟨true, false, false⟩ "A" Json.null (.one "B") =
        .error .unauthorizedError :=
  ⟨((c5_readiness_gates ⟨false, false, false⟩ "A" "r" "B" "u" Json.null none
        Json.null (.one "B")).1 (Or.inr rfl)).1,
   ((c5_readiness_gates ⟨true, false, false⟩ "A" "r" "B" "u" Json.null none
        Json.null (.one "B")).2 rfl rfl rfl).2.1,
   ((c5_readiness_gates ⟨true, false, false⟩ "A" "r" "B" "u" Json.null none
        Json.null (.one "B")).2 rfl rfl rfl).2.2⟩

/-- Claim C6 (confirmed): for every incoming request and every outcome of the
handler try-block, `_fulfill_request` sends exactly one reply, echoing the
request's correlation id and carrying the local client name as sender; the
reply is a Response holding the handler result when the try-block succeeded,
and otherwise an Error holding the exception message and formatted traceback
— the exception is absorbed into the reply, never re-raised. -/
theorem c6_fulfill_reply (localName : String) (m : WsMessage) (out : TryOutcome) :
    (fulfillSends localName m out).length = 1 ∧
    (fulfillRequest localName m out).uuid = m.uuid ∧
    (fulfillRequest localName m out).id = some localName ∧
    (match out with
     | .ok d =>
         (fulfillRequest localName m out).type = .response ∧
         (fulfillRequest localName m out).data = d
     | .exc emsg tb =>
         (fulfillRequest localName m out).type = .error ∧
         (fulfillRequest localName m out).data = .str emsg ∧
         (fulfillRequest localName m out).traceback = some tb) := by
  refine ⟨rfl, ?_, ?_, ?_⟩ <;> cases out <;> simp [fulfillRequest, fromMessage]

/-- Claim C7 (confirmed): with a correlation id present, `_dispatch` raises
the unknown-correlation-id error when no table entry matches; on a pending
entry it fulfils the future with the payload when the acceptance check passes
(Response/Ping), with the check-failure error when it fails, and for an
Error-kind message always with the remote-failure error carrying the payload,
ignoring the check. -/
theorem c7_resolution_rule (ls : List (String × Listener)) (m : WsMessage)
    (u : String) (hu : m.uuid = some u) (hnd : (dictKeys ls).Nodup) :
    (dictLookup ls u = none →
        dispatchStep m ls = .error (.uuidNotFoundError u)) ∧
    (∀ chk, dictLookup ls u = some ⟨chk, .unset⟩ →
      exceptOk (dispatchStep m ls) = true ∧
      ((m.type = .response ∨ m.type = .ping) → checkApply chk m.data = true →
          dispatchResultLookup m ls u = some ⟨chk, .set (.result m.data)⟩) ∧
      ((m.type = .response ∨ m.type = .ping) → checkApply chk m.data = false →
          dispatchResultLookup m ls u =
            some ⟨chk, .set (.checkFailureError u)⟩) ∧
      (m.type = .error →
          dispatchResultLookup m ls u =
            some ⟨chk, .set (.clientRuntimeError m.data)⟩)) := by
  constructor
  · intro hnone
    simp [dispatchStep, hu, dispatchScan_no_match m u ls hnone]
  · intro chk hsome
    obtain ⟨ls', hscan, hlook, _⟩ := dispatchScan_found m u ls hnd chk hsome
    have hstep : dispatchStep m ls = .ok ls' := by
      simp [dispatchStep, hu, hscan]
    have hres : dispatchResultLookup m ls u = dictLookup ls' u := by
      simp [dispatchResultLookup, hstep]
    refine ⟨by simp [hstep, exceptOk], ?_, ?_, ?_⟩
    · rintro (ht | ht) hc <;> simpa [hres, resolveOutcome, ht, hc] using hlook
    · rintro (ht | ht) hc <;> simpa [hres, resolveOutcome, ht, hc] using hlook
    · intro ht
      simpa [hres, resolveOutcome, ht] using hlook

/-- Claim C7 (witness): a Response matching the pending id "w7" with the
default check fulfils the future with the payload. -/
theorem c7_resolution_rule_witness :
    exceptOk (dispatchStep c7m c7ls) = true ∧
    dispatchResultLookup c7m c7ls "w7" =
      some ⟨none, .set (.result (.str "ok"))⟩ := by
  have h := (c7_resolution_rule c7ls c7m "w7" rfl
      (by simp [c7ls, dictKeys])).2 none rfl
  exact ⟨h.1, h.2.1 (Or.inl rfl) rfl⟩

/-- Claim C8 (confirmed): registering a route whose claimed name — the
explicit name, or the handler's own name when omitted — already exists raises
the duplicate-route error before any mutation, so the registry is unchanged
and the first handler is still the one found for that name. -/
theorem c8_duplicate_route {H : Type} (routes : List (String × H))
    (name : Option String) (funcName : String) (isCoro : Bool) (func : H)
    (h0 : H) (hdup : dictLookup routes (claimedName name funcName) = some h0) :
    routeRegister routes name funcName isCoro func =
        .error .valueErrorDuplicate ∧
    dictLookup (routeAfter routes name funcName isCoro func)
        (claimedName name funcName) = some h0 := by
  cases name with
  | none =>
      simp only [claimedName] at hdup
      have hc : dictContains routes funcName = true := by simp [dictContains, hdup]
      constructor
      · simp [routeRegister, hc]
      · simp [routeAfter, routeRegister, hc, claimedName, hdup]
  | some n =>
      simp only [claimedName] at hdup
      have hc : dictContains routes n = true := by simp [dictContains, hdup]
      constructor
      · simp [routeRegister, hc]
      · simp [routeAfter, routeRegister, hc, claimedName, hdup]

/-- Claim C8 (witness): re-registering the existing route "add" fails with
the duplicate error and leaves the first handler registered. -/
theorem c8_duplicate_route_witness :
    routeRegister [("add", 1)] (some "add") "f" true 2 =
        .error .valueErrorDuplicate ∧
    dictLookup (routeAfter [("add", 1)] (some "add") "f" true 2) "add" =
        some 1 :=
  c8_duplicate_route [("add", 1)] (some "add") "f" true 2 1 rfl

/-- Claim C9 (counterexample): registering a pending operation under the
already-outstanding id "u1" raises nothing — `__get_response` performs a bare
dict assignment — and the resolved entry previously stored there is replaced
by the fresh pending entry rather than left in place. -/
theorem c9_counterexample :
    dictLookup [("u1", c9old)] "u1" = some c9old ∧
    getResponseRegister [("u1", c9old)] "u1" =
        [("u1", ⟨none, FutureSlot.unset⟩)] ∧
    c9old.slot = FutureSlot.set (.result Json.null) := by
  exact ⟨rfl, rfl, rfl⟩

/-- Claim C9 (amended): registering a pending operation under a correlation
id that is already outstanding does not fail; the registration silently
replaces the existing entry with the fresh pending one, leaving the key set
unchanged. -/
theorem c9_register_replaces (ls : List (String × Listener)) (u : String)
    (h : dictContains ls u = true) :
    dictLookup (getResponseRegister ls u) u = some ⟨none, FutureSlot.unset⟩ ∧
    dictKeys (getResponseRegister ls u) = dictKeys ls := by
  exact ⟨dictLookup_insert_self ls u ⟨none, FutureSlot.unset⟩,
    dictKeys_insert_of_contains ls u ⟨none, FutureSlot.unset⟩ h⟩

/-- Claim C9 (witness): replacing the outstanding entry "u1" keeps the key
set and stores the fresh pending listener. -/
theorem c9_register_replaces_witness :
    dictLookup (getResponseRegister [("u1", c9old)] "u1") "u1" =
        some ⟨none, FutureSlot.unset⟩ ∧
    dictKeys (getResponseRegister [("u1", c9old)] "u1") = dictKeys [("u1", c9old)] :=
  c9_register_replaces [("u1", c9old)] "u1" rfl

theorem step_auth_mono (ctx : LoopCtx) (s : ConnState) (ev : LoopEvent)
    (h : s.authorized = true) :
    (onMessageStep ctx s ev).state.authorized = true := by
  cases ev with
  | closed => simpa [onMessageStep] using h
  | msg m =>
      simp only [onMessageStep]
      repeat' split
      all_goals simp_all

theorem step_ready_char (ctx : LoopCtx) (s : ConnState) (ev : LoopEvent)
    (h : (onMessageStep ctx s ev).events.contains "on_winerp_ready" = true) :
    s.authorized = false ∧ (onMessageStep ctx s ev).state.authorized = true := by
  cases ev with
  | closed =>
      simp only [onMessageStep] at h
      exact absurd h (by decide)
  | msg m =>
      by_cases h1 : m.type = .success ∧ s.authorized = false
      · exact ⟨h1.2, by simp [onMessageStep, h1]⟩
      · exfalso
        simp only [onMessageStep, if_neg h1] at h
        repeat' split at h
        all_goals simp at h

theorem readyCount_cons (e : StepEffect) (tr : List StepEffect) :
    readyCount (e :: tr) =
      readyCount tr +
        (if e.events.contains "on_winerp_ready" = true then 1 else 0) := by
  simp [readyCount, List.countP_cons]

theorem runLoop_ready_aux (ctx : LoopCtx) (evs : List LoopEvent) :
    ∀ s : ConnState,
      (s.authorized = true →
        (runLoop ctx s evs).1.authorized = true ∧
        readyCount (runLoop ctx s evs).2 = 0) ∧
      readyCount (runLoop ctx s evs).2 ≤ 1 := by
  induction evs with
  | nil => intro s; simp [runLoop, readyCount]
  | cons ev rest ih =>
      intro s
      by_cases hc : (onMessageStep ctx s ev).continues = true
      · have hrun : runLoop ctx s (ev :: rest) =
            ((runLoop ctx (onMessageStep ctx s ev).state rest).1,
             onMessageStep ctx s ev ::
               (runLoop ctx (onMessageStep ctx s ev).state rest).2) := by
          simp [runLoop, hc]
        rw [hrun]
        simp only [readyCount_cons]
        by_cases hr : (onMessageStep ctx s ev).events.contains
            "on_winerp_ready" = true
        · obtain ⟨hsa, hauth⟩ := step_ready_char ctx s ev hr
          have h0 := (ih (onMessageStep ctx s ev).state).1 hauth
          refine ⟨?_, ?_⟩
          · intro hs
            rw [hs] at hsa
            simp at hsa
          · rw [if_pos hr, h0.2]
        · refine ⟨?_, ?_⟩
          · intro hs
            have hauth := step_auth_mono ctx s ev hs
            have h0 := (ih (onMessageStep ctx s ev).state).1 hauth
            exact ⟨h0.1, by rw [if_neg hr, h0.2]⟩
          · have h1 := (ih (onMessageStep ctx s ev).state).2
            rw [if_neg hr]
            omega
      · have hrun : runLoop ctx s (ev :: rest) =
            ((onMessageStep ctx s ev).state, [onMessageStep ctx s ev]) := by
          simp [runLoop, hc]
        rw [hrun]
        simp only [readyCount_cons]
        refine ⟨?_, ?_⟩
        · intro hs
          refine ⟨step_auth_mono ctx s ev hs, ?_⟩
          by_cases hr : (onMessageStep ctx s ev).events.contains
              "on_winerp_ready" = true
          · obtain ⟨hsa, _⟩ := step_ready_char ctx s ev hr
            rw [hs] at hsa
            simp at hsa
          · have h0 : readyCount ([] : List StepEffect) = 0 := rfl
            rw [if_neg hr, h0]
        · have h0 : readyCount ([] : List StepEffect) = 0 := rfl
          rw [h0]
          split <;> omega

/-- Claim C10 (confirmed): the authorized flag is monotone — no loop
iteration, including transport closure and the disconnect path, resets it —
and across any run of the dispatcher the verification-success branch (the
only one firing "on_winerp_ready") executes at most once. -/
theorem c10_authorized_monotone (ctx : LoopCtx) (s : ConnState)
    (evs : List LoopEvent) :
    (s.authorized = true → (runLoop ctx s evs).1.authorized = true) ∧
    readyCount (runLoop ctx s evs).2 ≤ 1 :=
  ⟨fun hs => ((runLoop_ready_aux ctx evs s).1 hs).1,
   (runLoop_ready_aux ctx evs s).2⟩

/-- Claim C10 (witness): an authorized client stays authorized through a
success message followed by transport closure, with no second ready
notification. -/
theorem c10_authorized_monotone_witness :
    (runLoop c10ctx { authorized := true, onHold := false }
        [.msg { type := .success }, .closed]).1.authorized = true ∧
    readyCount (runLoop c10ctx { authorized := true, onHold := false }
        [.msg { type := .success }, .closed]).2 ≤ 1 :=
  ⟨(c10_authorized_monotone c10ctx { authorized := true, onHold := false }
      [.msg { type := .success }, .closed]).1 rfl,
   (c10_authorized_monotone c10ctx { authorized := true, onHold := false }
      [.msg { type := .success }, .closed]).2⟩
